import Mathlib

/-!
Verification development for the enso-bot support-chat relay.

The TypeScript sources are shallowly embedded as executable Lean
definitions:

* `src/schema.ts` / the `CREATE TABLE` statements of `src/database.ts`
  become the structures `User`, `Thread`, `Message`, `Reaction` and the
  record `DB` (each table a list of rows, keyed by its primary key;
  `find?` on the list models a point `SELECT ... LIMIT 1`).
* each prepared statement of `src/database.ts` becomes a function on `DB`.
* the WebSocket layer of `src/chat.ts` (class `Chat`) becomes `Registry`,
  `Chat.sendMsg` and `Chat.onWebSocketMessage`, with the live-connection
  table modelled as an association list from user id to a numeric
  connection handle and an environment oracle `connOpen` standing for
  `websocket.readyState === OPEN`.
* the bot's event handlers (`Bot.onMessage`, `Bot.onDiscordMessageCreate`,
  `Bot.onDiscordMessageUpdate`, `Bot.sendThread`) become functions from a
  system state `Sys` (registry + database) to `Sys × Effects`, where
  `Effects` records the externally observable actions: frames written to
  an open socket, `websocket.close()` calls, upstream message deletions,
  direct-message prompts, webhook posts and error logs.

Discord snowflake message ids are modelled as `Nat` (the id order used by
`ORDER BY discordMessageId` / `<`); thread, user and discord-user ids are
plain strings, as in the source.
-/

-- ===========================================================
-- Association lists: the runtime behaviour of a JS `Map` from
-- `src/chat.ts` (`ipToUser`, `userToIp`, `userToWebsocket`).
-- ===========================================================

/-- `Map.get(k)`: the value stored at `k`, if any. -/
def Assoc.get {α β : Type} [DecidableEq α] (l : List (α × β)) (k : α) : Option β :=
  (l.find? (fun p => decide (p.1 = k))).map (fun p => p.2)

/-- `Map.set(k, v)`: overwrite the entry for `k`, or append a fresh one. -/
def Assoc.set {α β : Type} [DecidableEq α] (l : List (α × β)) (k : α) (v : β) :
    List (α × β) :=
  if l.any (fun p => decide (p.1 = k)) then l.map (fun p => if p.1 = k then (k, v) else p)
  else l ++ [(k, v)]

/-- `Map.delete(k)`: remove every entry for `k`. -/
def Assoc.del {α β : Type} [DecidableEq α] (l : List (α × β)) (k : α) : List (α × β) :=
  l.filter (fun p => decide (¬p.1 = k))

-- ===========================================================
-- Schema: the rows of the four tables created by
-- `Database.init` in `src/database.ts`.
-- ===========================================================

/-- A row of the `users` table. The table's columns are exactly
`id, discordId, name, avatarUrl, currentThreadId` — there is NO `email`
column, even though the bot layer passes an `email` field to `createUser`.
`email` here records the value a `SELECT *` row would expose: always
`none`, because the column does not exist (`user.email` is `undefined` in
JS). `Database.createUser` therefore discards the caller's email. -/
structure User where
  id : String
  discordId : Option String
  name : String
  avatarUrl : Option String
  currentThreadId : Option String
  email : Option String
  deriving Repr, DecidableEq

/-- A row of the `threads` table. -/
structure Thread where
  discordThreadId : String
  userId : String
  title : String
  lastMessageSentId : Nat
  lastMessageReadId : Nat
  deriving Repr, DecidableEq

/-- A row of the `messages` table. `editedAt` is declared `NOT NULL`,
so a stored row always carries a number (sqlite aborts an UPDATE that
binds null, see `Bot.onDiscordMessageUpdate`). -/
structure Message where
  discordMessageId : Nat
  discordThreadId : String
  discordAuthorId : Option String
  content : String
  createdAt : Int
  editedAt : Int
  deriving Repr, DecidableEq

/-- A row of the `reactions` table. -/
structure Reaction where
  discordMessageId : Nat
  reaction : String
  deriving Repr, DecidableEq

/-- The database: each table as its list of rows, in insertion order. -/
structure DB where
  users : List User
  threads : List Thread
  messages : List Message
  reactions : List Reaction
  deriving Repr, DecidableEq

/-- The value the bot passes to `Database.createUser` (a
`schema.User` object, which includes an `email` field at the bot layer). -/
structure NewUser where
  id : String
  discordId : Option String
  email : Option String
  name : String
  avatarUrl : Option String
  currentThreadId : Option String
  deriving Repr, DecidableEq

-- ===========================================================
-- Database operations (src/database.ts)
-- ===========================================================

namespace DB

/-- `createUser`: `INSERT INTO users (id, discordId, name, avatarUrl,
currentThreadId) VALUES (?, ?, ?, ?, ?)`. The `email` field of the passed
object is not among the inserted columns, so the stored row has no email. -/
def createUser (db : DB) (u : NewUser) : DB :=
  { db with users := db.users ++
      [{ id := u.id, discordId := u.discordId, name := u.name,
         avatarUrl := u.avatarUrl, currentThreadId := u.currentThreadId,
         email := none }] }

/-- `getUser`: `SELECT * FROM users WHERE id = ? LIMIT 1`. The TS cast
pretends the row exists; `none` models the `undefined` result. -/
def getUser (db : DB) (uid : String) : Option User :=
  db.users.find? (fun u => decide (u.id = uid))

/-- `getUserByDiscordId`: `SELECT * FROM users WHERE discordId = ? LIMIT 1`. -/
def getUserByDiscordId (db : DB) (did : String) : Option User :=
  db.users.find? (fun u => decide (u.discordId = some did))

/-- `updateUser`: read-modify-write; `UPDATE users SET discordId=?, name=?,
avatarUrl=?, currentThreadId=? WHERE id=?` with the fields of `fn(row)`.
When the row is absent the TS code throws while binding (`fn(undefined)`),
leaving the table unchanged; callers guard on existence. -/
def updateUser (db : DB) (uid : String) (fn : User → User) : DB :=
  match db.getUser uid with
  | none => db
  | some u =>
    let n := fn u
    { db with users := db.users.map (fun w =>
        if w.id = uid then
          { w with discordId := n.discordId, name := n.name,
                   avatarUrl := n.avatarUrl, currentThreadId := n.currentThreadId }
        else w) }

/-- `hasUser`: `SELECT 1 FROM users WHERE id=? LIMIT 1`. -/
def hasUser (db : DB) (uid : String) : Bool :=
  db.users.any (fun u => decide (u.id = uid))

/-- `createThread`: `INSERT INTO threads ... VALUES (?, ?, ?, ?, ?)`. -/
def createThread (db : DB) (t : Thread) : DB :=
  { db with threads := db.threads ++ [t] }

/-- `getThread`: `SELECT * FROM threads WHERE discordThreadId = ? LIMIT 1`. -/
def getThread (db : DB) (tid : String) : Option Thread :=
  db.threads.find? (fun t => decide (t.discordThreadId = tid))

/-- `updateThread`: read-modify-write; `UPDATE threads SET userId=?, title=?,
lastMessageSentId=?, lastMessageReadId=? WHERE discordThreadId=?`. -/
def updateThread (db : DB) (tid : String) (fn : Thread → Thread) : DB :=
  match db.getThread tid with
  | none => db
  | some t =>
    let n := fn t
    { db with threads := db.threads.map (fun w =>
        if w.discordThreadId = tid then
          { w with userId := n.userId, title := n.title,
                   lastMessageSentId := n.lastMessageSentId,
                   lastMessageReadId := n.lastMessageReadId }
        else w) }

/-- `hasThread`: `SELECT 1 FROM threads WHERE discordThreadId=? LIMIT 1`. -/
def hasThread (db : DB) (tid : String) : Bool :=
  db.threads.any (fun t => decide (t.discordThreadId = tid))

/-- `createMessage`: `INSERT INTO messages ... VALUES (?, ?, ?, ?, ?, ?)`. -/
def createMessage (db : DB) (m : Message) : DB :=
  { db with messages := db.messages ++ [m] }

/-- `getMessage`: `SELECT * FROM messages WHERE discordMessageId = ? LIMIT 1`. -/
def getMessage (db : DB) (mid : Nat) : Option Message :=
  db.messages.find? (fun m => decide (m.discordMessageId = mid))

/-- `updateMessage`: read-modify-write; `UPDATE messages SET discordThreadId=?,
discordAuthorId=?, content=?, createdAt=?, editedAt=? WHERE discordMessageId=?`. -/
def updateMessage (db : DB) (mid : Nat) (fn : Message → Message) : DB :=
  match db.getMessage mid with
  | none => db
  | some m =>
    let n := fn m
    { db with messages := db.messages.map (fun w =>
        if w.discordMessageId = mid then
          { w with discordThreadId := n.discordThreadId,
                   discordAuthorId := n.discordAuthorId, content := n.content,
                   createdAt := n.createdAt, editedAt := n.editedAt }
        else w) }

/-- `getUserThreads`: `SELECT * from threads WHERE userId = ?`. -/
def getUserThreads (db : DB) (uid : String) : List Thread :=
  db.threads.filter (fun t => decide (t.userId = uid))

end DB

-- ===========================================================
-- getThreadLastMessages (src/database.ts lines 84-95, 261-278)
-- ===========================================================

/-- Ascending message-id order (the outer `ORDER BY discordMessageId ASC`). -/
def Message.idle (a b : Message) : Prop :=
  a.discordMessageId ≤ b.discordMessageId

/-- Descending message-id order (the inner `ORDER BY discordMessageId DESC`). -/
def Message.idge (a b : Message) : Prop :=
  b.discordMessageId ≤ a.discordMessageId

instance : DecidableRel Message.idle := fun a b =>
  inferInstanceAs (Decidable (a.discordMessageId ≤ b.discordMessageId))

instance : DecidableRel Message.idge := fun a b =>
  inferInstanceAs (Decidable (b.discordMessageId ≤ a.discordMessageId))

instance : IsTotal Message Message.idle :=
  ⟨fun a b => Nat.le_total a.discordMessageId b.discordMessageId⟩

instance : IsTrans Message Message.idle :=
  ⟨fun _ _ _ h h' => Nat.le_trans h h'⟩

instance : IsTotal Message Message.idge :=
  ⟨fun a b => Nat.le_total b.discordMessageId a.discordMessageId⟩

instance : IsTrans Message Message.idge :=
  ⟨fun _ _ _ h h' => Nat.le_trans h' h⟩

/-- `getThreadLastMessages(threadId, limit, getBefore)`: dispatches to
`getThreadLastMessagesBeforeStatement` when `getBefore != null`, else to
`getThreadLastMessagesStatement`. Each statement selects the thread's
messages (those below `getBefore` in the first case), orders them by id
descending, truncates to `limit`, and re-orders the page ascending. -/
def DB.getThreadLastMessages (db : DB) (tid : String) (limit : Nat)
    (getBefore : Option Nat) : List Message :=
  match getBefore with
  | some b =>
    List.insertionSort Message.idle
      ((List.insertionSort Message.idge
        (db.messages.filter
          (fun m => decide (m.discordThreadId = tid ∧ m.discordMessageId < b)))).take limit)
  | none =>
    List.insertionSort Message.idle
      ((List.insertionSort Message.idge
        (db.messages.filter (fun m => decide (m.discordThreadId = tid)))).take limit)

/-- The messages a `getThreadLastMessages(tid, _, getBefore)` call draws
from: the thread's rows, restricted to ids below `getBefore` when present. -/
def DB.messagePool (db : DB) (tid : String) (getBefore : Option Nat) : List Message :=
  match getBefore with
  | some b => db.messages.filter
      (fun m => decide (m.discordThreadId = tid ∧ m.discordMessageId < b))
  | none => db.messages.filter (fun m => m.discordThreadId = tid)

-- ===========================================================
-- Reactions (src/database.ts lines 96-107, 280-302)
-- ===========================================================

namespace DB

/-- `createReaction`: `INSERT INTO reactions (discordMessageId, reaction)`. -/
def createReaction (db : DB) (r : Reaction) : DB :=
  { db with reactions := db.reactions ++ [r] }

/-- `getReactions`: reactions right-joined against messages, restricted to
the given thread and to message ids within `[startId, endId]`. -/
def getReactions (db : DB) (tid : String) (startId endId : Nat) : List Reaction :=
  db.reactions.filter (fun r =>
    match db.messages.find? (fun m => decide (m.discordMessageId = r.discordMessageId)) with
    | some m => decide (m.discordThreadId = tid ∧
        startId ≤ m.discordMessageId ∧ m.discordMessageId ≤ endId)
    | none => false)

/-- `deleteReaction`: `DELETE FROM reactions WHERE discordMessageId = ? AND
reaction = ?`. -/
def deleteReaction (db : DB) (r : Reaction) : DB :=
  { db with reactions := db.reactions.filter (fun w =>
      decide (¬(w.discordMessageId = r.discordMessageId ∧ w.reaction = r.reaction))) }

end DB

-- ===========================================================
-- Protocol messages (src/chat.ts)
-- ===========================================================

/-- `ChatServerThreadRequestType`: the client message types that may
trigger a `serverThread` response. -/
inductive ReqType where
  | authenticate
  | historyBefore
  | newThread
  | switchThread
  deriving Repr, DecidableEq

/-- An entry of a `serverThreads` frame (`ThreadData` in `src/chat.ts`). -/
structure ThreadData where
  title : String
  id : String
  hasUnreadMessages : Bool
  deriving Repr, DecidableEq

/-- An entry of a `serverThread` frame's `messages` list: either a staff
`serverMessage` (with author info and reactions) or the customer's own
`serverReplayedMessage`. -/
inductive HistoryEntry where
  | serverMessage (id : Nat) (authorAvatar : Option String) (authorName : String)
      (content : String) (reactions : List String) (timestamp : Int)
      (editedTimestamp : Option Int)
  | serverReplayedMessage (id : Nat) (content : String) (timestamp : Int)
  deriving Repr, DecidableEq

/-- `ChatServerMessageData`: a frame from the server to the client. -/
inductive ServerMsg where
  | serverThreads (threads : List ThreadData)
  | serverThread (requestType : ReqType) (id : String) (title : String)
      (isAtBeginning : Bool) (messages : List HistoryEntry)
  | serverMessage (id : Nat) (authorAvatar : Option String) (authorName : String)
      (content : String) (reactions : List String) (timestamp : Int)
      (editedTimestamp : Option Int)
  | serverEditedMessage (id : Nat) (content : String) (timestamp : Int)
  | serverReplayedMessage (id : Nat) (content : String) (timestamp : Int)
  deriving Repr, DecidableEq

/-- `ChatClientMessageData | ChatInternalMessageData`: the union the bot's
`onMessage` dispatches on (the two `internal*` variants are produced by
`Chat.onWebSocketMessage` itself, the rest arrive as client frames). -/
inductive BotInMsg where
  | internalAuthenticate (userId : String) (userName : String)
  | internalAuthenticateAnonymously (userId : String) (email : String)
  | authenticate (accessToken : String)
  | authenticateAnonymously (email : String)
  | historyBefore (messageId : Nat)
  | newThread (title : String) (content : String)
  | renameThread (title : String) (threadId : String)
  | switchThread (threadId : String)
  | message (threadId : String) (content : String)
  | reaction (messageId : Nat) (reaction : String)
  | removeReaction (messageId : Nat) (reaction : String)
  | markAsRead (threadId : String) (messageId : Nat)
  deriving Repr, DecidableEq

-- ===========================================================
-- Session registry, system state, observable effects
-- ===========================================================

/-- The `Chat` class's three in-memory maps; connection handles
(`ws.WebSocket` objects) are numeric ids, their open/closed state is an
environment oracle. -/
structure Registry where
  ipToUser : List (String × String)
  userToIp : List (String × String)
  userToWebsocket : List (String × Nat)
  deriving Repr, DecidableEq

/-- The whole mutable state: the session registry and the sqlite store. -/
structure Sys where
  reg : Registry
  db : DB
  deriving Repr, DecidableEq

/-- Externally observable actions of one handler run. -/
structure Effects where
  /-- Frames written to an open socket: `(userId, frame)` in send order. -/
  frames : List (String × ServerMsg) := []
  /-- `websocket.close()` calls, by connection handle. -/
  closes : List Nat := []
  /-- `console.error` lines (their count and rough content). -/
  logs : List String := []
  /-- Upstream `message.delete()` calls, by discord message id. -/
  deletes : List Nat := []
  /-- Direct messages to a discord user (`author.send`), by discord user id. -/
  dms : List String := []
  /-- `message.channel.send` replies in the registration DM flow. -/
  replies : List String := []
  /-- Webhook posts `(threadId, content)`. -/
  webhook : List (String × String) := []
  deriving Repr, DecidableEq

/-- Sequencing of effect logs. -/
def Effects.append (a b : Effects) : Effects :=
  { frames := a.frames ++ b.frames, closes := a.closes ++ b.closes,
    logs := a.logs ++ b.logs, deletes := a.deletes ++ b.deletes,
    dms := a.dms ++ b.dms, replies := a.replies ++ b.replies,
    webhook := a.webhook ++ b.webhook }

/-- The result of `Chat.send` as the spec describes it (the TS method
returns `undefined` in the first two cases and a completed promise in the
third; the branch taken is what matters). -/
inductive SendResult where
  | notOnline
  | notConnected
  | sent
  deriving Repr, DecidableEq

/-- Environment oracles: everything the handlers consult that lives
outside the registry and the database. -/
structure Env where
  /-- `websocket.readyState === websocket.OPEN` for a connection handle. -/
  connOpen : Nat → Bool
  /-- `validator`'s `isEmail` (external library, modelled as an oracle). -/
  isEmail : String → Bool
  /-- The external identity endpoint: `some (id, name, email)` on a 2xx
  response to the given access token, `none` on failure. -/
  authResponse : String → Option (String × String × String)
  /-- `Bot.getThread`: whether fetching the channel yields a usable
  text-based thread channel (non-null result of the cache/fetch). -/
  discordThreadOk : String → Bool
  /-- `thread.messages.fetch(messageId)` succeeds. -/
  discordMessageOk : Nat → Bool
  /-- `guild.members.fetch` result: `none` when the author is not a guild
  member (the fetch throws), `some b` with `b` = holds the staff role. -/
  memberStaff : String → Option Bool
  /-- The id of the thread `channel.threads.create` returns. -/
  newThreadId : String
  /-- The id of the message `webhook.send` returns. -/
  webhookMessageId : Nat
  /-- The `createdTimestamp` of the message `webhook.send` returns. -/
  webhookTimestamp : Int

-- ===========================================================
-- Chat.send (src/chat.ts lines 724-748)
-- ===========================================================

/-- `Chat.send(userId, message)`: look up the user's live connection; if
none, the user is offline (no-op); if the connection is not open, delete
the user's `userToWebsocket` and `userToIp` entries and the `ipToUser`
entry for the remembered address, and report not-connected; otherwise
write the frame to the socket. -/
def Chat.sendMsg (env : Env) (sys : Sys) (uid : String) (msg : ServerMsg) :
    Sys × Effects × SendResult :=
  match Assoc.get sys.reg.userToWebsocket uid with
  | none => (sys, {}, SendResult.notOnline)
  | some conn =>
    if env.connOpen conn then
      (sys, { frames := [(uid, msg)] }, SendResult.sent)
    else
      let r1 := { sys.reg with userToWebsocket := Assoc.del sys.reg.userToWebsocket uid }
      let ip := Assoc.get r1.userToIp uid
      let r2 := { r1 with userToIp := Assoc.del r1.userToIp uid }
      let r3 := match ip with
        | some a => { r2 with ipToUser := Assoc.del r2.ipToUser a }
        | none => r2
      ({ sys with reg := r3 }, {}, SendResult.notConnected)

-- ===========================================================
-- Bot.sendThread (src/unnamed/part_000 lines 687-772)
-- ===========================================================

/-- `MESSAGE_HISTORY_LENGTH`. -/
def MESSAGE_HISTORY_LENGTH : Nat := 25

/-- JS truthiness of the (possibly missing) `email` property of a user
row: truthy iff present and non-empty. -/
def emailTruthy : Option String → Bool
  | none => false
  | some s => decide (s ≠ "")

/-- One entry of the history page (`messages.flatMap` body in
`sendThread`): the customer's own rows replay as `serverReplayedMessage`;
staff rows become `serverMessage` decorated with reactions and an
`editedTimestamp` only when the row was edited; staff rows whose author is
no longer registered are dropped. -/
def historyEntry (db : DB) (reactions : List Reaction) (m : Message) :
    Option HistoryEntry :=
  match m.discordAuthorId with
  | none => some (HistoryEntry.serverReplayedMessage m.discordMessageId m.content m.createdAt)
  | some aid =>
    match db.getUserByDiscordId aid with
    | none => none
    | some staff =>
      some (HistoryEntry.serverMessage m.discordMessageId staff.avatarUrl staff.name
        m.content
        ((reactions.filter (fun r => decide (r.discordMessageId = m.discordMessageId))).map
          (fun r => r.reaction))
        m.createdAt
        (if m.editedAt ≠ m.createdAt then some m.editedAt else none))

/-- `Bot.sendThread(userId, threadId, requestType, getBefore)`: fetch one
history page of `MESSAGE_HISTORY_LENGTH + 1` rows, decorate with
reactions, compute `isAtBeginning`, show the last `MESSAGE_HISTORY_LENGTH`
rows and push one `serverThread` frame. A null `threadId` is a no-op; an
untracked `threadId` makes the TS handler throw on the undefined row
before anything is sent. -/
def Bot.sendThread (env : Env) (uid : String) (tid? : Option String)
    (reqType : ReqType) (getBefore : Option Nat) (sys : Sys) : Sys × Effects :=
  match tid? with
  | none => (sys, {})
  | some tid =>
    match sys.db.getThread tid with
    | none => (sys, {})
    | some thread =>
      let messages := sys.db.getThreadLastMessages tid (MESSAGE_HISTORY_LENGTH + 1) getBefore
      let reactions := match messages.head?, messages.getLast? with
        | some f, some l => sys.db.getReactions tid f.discordMessageId l.discordMessageId
        | _, _ => []
      let isAtBeginning := decide (messages.length ≤ MESSAGE_HISTORY_LENGTH)
      let page := messages.drop (messages.length - MESSAGE_HISTORY_LENGTH)
      let entries := page.filterMap (historyEntry sys.db reactions)
      let r := Chat.sendMsg env sys uid
        (ServerMsg.serverThread reqType thread.discordThreadId thread.title
          isAtBeginning entries)
      (r.1, r.2.1)

-- ===========================================================
-- Bot.onMessage (src/unnamed/part_000 lines 774-959)
-- ===========================================================

/-- The `serverThreads` entry built in the `authenticate` case:
`hasUnreadMessages` is `lastMessageReadId !== lastMessageSentId`. -/
def threadData (t : Thread) : ThreadData :=
  { id := t.discordThreadId, title := t.title,
    hasUnreadMessages := decide (t.lastMessageReadId ≠ t.lastMessageSentId) }

/-- `Bot.onMessage(userId, message)`: the client/internal frame dispatcher. -/
def Bot.onMessage (env : Env) (userId : String) (msg : BotInMsg) (sys : Sys) :
    Sys × Effects :=
  match msg with
  | BotInMsg.internalAuthenticate uid name =>
    if sys.db.hasUser uid then (sys, {})
    else
      let db1 := sys.db.createUser
        { id := uid, discordId := none, email := none, name := name,
          avatarUrl := none, currentThreadId := none }
      ({ sys with db := db1 }, {})
  | BotInMsg.internalAuthenticateAnonymously uid email =>
    if sys.db.hasUser uid then (sys, {})
    else
      let db1 := sys.db.createUser
        { id := uid, discordId := none, email := some email, name := email,
          avatarUrl := none, currentThreadId := none }
      ({ sys with db := db1 }, {})
  | BotInMsg.authenticate _ =>
    let threads := sys.db.getUserThreads userId
    let r1 := Chat.sendMsg env sys userId
      (ServerMsg.serverThreads (threads.map threadData))
    match r1.1.db.getUser userId with
    | none => (r1.1, r1.2.1)
    | some u =>
      let r2 := Bot.sendThread env userId u.currentThreadId
        ReqType.authenticate none r1.1
      (r2.1, (r1.2.1).append r2.2)
  | BotInMsg.authenticateAnonymously _ => (sys, {})
  | BotInMsg.historyBefore mid =>
    match sys.db.getUser userId with
    | none => (sys, {})
    | some u =>
      if emailTruthy u.email then (sys, {})
      else Bot.sendThread env userId u.currentThreadId ReqType.historyBefore (some mid) sys
  | BotInMsg.newThread title content =>
    match sys.db.getUser userId with
    | none => (sys, {})
    | some u0 =>
      let tid := env.newThreadId
      let mid := env.webhookMessageId
      let db1 := sys.db.updateUser userId (fun u => { u with currentThreadId := some tid })
      let user := { u0 with currentThreadId := some tid }
      let eW : Effects := { webhook := [(tid, content)] }
      if db1.hasThread tid then ({ sys with db := db1 }, eW)
      else
        let db2 := db1.createThread
          { discordThreadId := tid, userId := userId, title := title,
            lastMessageSentId := mid, lastMessageReadId := mid }
        if (db2.getMessage mid).isSome then ({ sys with db := db2 }, eW)
        else
          let db3 := db2.createMessage
            { discordMessageId := mid, discordThreadId := tid, discordAuthorId := none,
              content := content, createdAt := env.webhookTimestamp,
              editedAt := env.webhookTimestamp }
          let r3 := Chat.sendMsg env { sys with db := db3 } user.id
            (ServerMsg.serverThread ReqType.newThread tid title true
              [HistoryEntry.serverReplayedMessage mid content env.webhookTimestamp])
          (r3.1, eW.append r3.2.1)
  | BotInMsg.renameThread title tid =>
    if env.discordThreadOk tid then
      let db1 := sys.db.updateThread tid (fun t => { t with title := title })
      ({ sys with db := db1 }, {})
    else (sys, {})
  | BotInMsg.switchThread tid =>
    match sys.db.getUser userId with
    | none => (sys, {})
    | some _ =>
      let db1 := sys.db.updateUser userId (fun u => { u with currentThreadId := some tid })
      Bot.sendThread env userId (some tid) ReqType.switchThread none { sys with db := db1 }
  | BotInMsg.message tid content =>
    if env.discordThreadOk tid then
      match sys.db.getUser userId with
      | none => (sys, {})
      | some _ =>
        let mid := env.webhookMessageId
        let eW : Effects := { webhook := [(tid, content)] }
        if (sys.db.getMessage mid).isSome then (sys, eW)
        else
          let db1 := sys.db.createMessage
            { discordMessageId := mid, discordThreadId := tid, discordAuthorId := none,
              content := content, createdAt := env.webhookTimestamp,
              editedAt := env.webhookTimestamp }
          ({ sys with db := db1 }, eW)
    else (sys, {})
  | BotInMsg.reaction mid sym =>
    match sys.db.getUser userId with
    | none => (sys, {})
    | some u =>
      match u.currentThreadId with
      | none => (sys, {})
      | some tid =>
        if env.discordThreadOk tid then
          if env.discordMessageOk mid then
            if sys.db.reactions.any (fun r =>
                decide (r.discordMessageId = mid ∧ r.reaction = sym)) then
              (sys, {})
            else
              let db1 := sys.db.createReaction { discordMessageId := mid, reaction := sym }
              ({ sys with db := db1 }, {})
          else (sys, {})
        else (sys, {})
  | BotInMsg.removeReaction mid sym =>
    match sys.db.getUser userId with
    | none => (sys, {})
    | some u =>
      match u.currentThreadId with
      | none => (sys, {})
      | some tid =>
        if env.discordThreadOk tid then
          if env.discordMessageOk mid then
            let db1 := sys.db.deleteReaction { discordMessageId := mid, reaction := sym }
            ({ sys with db := db1 }, {})
          else (sys, {})
        else (sys, {})
  | BotInMsg.markAsRead tid mid =>
    let db1 := sys.db.updateThread tid (fun t => { t with lastMessageReadId := mid })
    ({ sys with db := db1 }, {})

-- ===========================================================
-- Bot.onDiscordMessageCreate (src/unnamed/part_000 lines 562-649)
-- ===========================================================

/-- An inbound platform message-create event, with the fields the handler
reads. `attachments` carries the attachments' proxy URLs. -/
structure CreateEvent where
  id : Nat
  channelId : String
  authorId : String
  authorBot : Bool
  authorSystem : Bool
  channelIsThread : Bool
  channelIsDM : Bool
  typeIsDefault : Bool
  content : String
  createdTimestamp : Int
  attachments : List String
  deriving Repr, DecidableEq

/-- The JS regex `/^\s*$/` applied to the message body. -/
def isBlankContent (s : String) : Bool :=
  s.toList.all Char.isWhitespace

/-- `Bot.onDiscordMessageCreate(message)`: ignore automated senders; in a
tracked thread, persist and relay a registered staff member's message
(advancing `lastMessageSentId`) or delete an unregistered sender's message
and prompt them by DM; in a DM, run staff self-registration. -/
def Bot.onDiscordMessageCreate (env : Env) (ev : CreateEvent) (sys : Sys) :
    Sys × Effects :=
  if ev.authorBot || ev.authorSystem then (sys, {})
  else if ev.channelIsThread && sys.db.hasThread ev.channelId && ev.typeIsDefault then
    match sys.db.getUserByDiscordId ev.authorId with
    | none => (sys, { deletes := [ev.id], dms := [ev.authorId] })
    | some staff =>
      if (sys.db.getMessage ev.id).isSome then (sys, {})
      else
        let db1 := sys.db.createMessage
          { discordMessageId := ev.id, discordThreadId := ev.channelId,
            discordAuthorId := some ev.authorId, content := ev.content,
            createdAt := ev.createdTimestamp, editedAt := ev.createdTimestamp }
        let db2 := db1.updateThread ev.channelId
          (fun t => { t with lastMessageSentId := ev.id })
        match db2.getThread ev.channelId with
        | none => ({ sys with db := db2 }, {})
        | some thread =>
          match db2.getUser thread.userId with
          | none => ({ sys with db := db2 }, {})
          | some user =>
            if user.currentThreadId = some ev.channelId then
              let r3 := Chat.sendMsg env { sys with db := db2 } thread.userId
                (ServerMsg.serverMessage ev.id staff.avatarUrl staff.name ev.content []
                  ev.createdTimestamp none)
              (r3.1, r3.2.1)
            else ({ sys with db := db2 }, {})
  else if ev.channelIsDM && ev.typeIsDefault then
    match env.memberStaff ev.authorId with
    | none => (sys, {})
    | some false => (sys, {})
    | some true =>
      match ev.attachments.head? with
      | none =>
        (sys, { replies := ["You must upload exactly one photo for your avatar."] })
      | some avatar =>
        if ev.attachments.length ≠ 1 then
          (sys, { replies := ["You must upload exactly one photo for your avatar."] })
        else if isBlankContent ev.content then
          (sys, { replies := ["You must send your full name with your image."] })
        else if ev.content.contains '\n' then
          (sys, { replies := ["Your name must not span multiple names."] })
        else if (sys.db.getUserByDiscordId ev.authorId).isSome then
          match sys.db.getUser ev.authorId with
          | none => (sys, {})
          | some _ =>
            let db1 := sys.db.updateUser ev.authorId
              (fun u => { u with name := ev.content, avatarUrl := some avatar })
            ({ sys with db := db1 }, { replies := ["Updated user profile."] })
        else
          let db1 := sys.db.createUser
            { id := ev.authorId, discordId := some ev.authorId, email := none,
              name := ev.content, avatarUrl := some avatar, currentThreadId := none }
          ({ sys with db := db1 }, { replies := ["Created user profile."] })
  else (sys, {})

-- ===========================================================
-- Bot.onDiscordMessageUpdate (src/unnamed/part_000 lines 651-685)
-- ===========================================================

/-- An inbound platform message-update (edit) event. Both `content` and
`editedTimestamp` can be missing on the wire. -/
structure UpdateEvent where
  id : Nat
  channelId : String
  channelIsThread : Bool
  content : Option String
  editedTimestamp : Option Int
  deriving Repr, DecidableEq

/-- `Bot.onDiscordMessageUpdate(oldMessage, newMessage)`: for a tracked
thread the handler FIRST runs `updateMessage`, binding
`newMessage.editedTimestamp!` into the `NOT NULL` `editedAt` column, and
only THEN checks `content`/`editedTimestamp` for null. Consequences kept
by this embedding: an absent row or a null timestamp makes the UPDATE
throw (row unchanged, handler aborts, outer wrapper logs); a null content
with a present timestamp leaves the row's `editedAt` already overwritten
before the check logs and stops. -/
def Bot.onDiscordMessageUpdate (env : Env) (ev : UpdateEvent) (sys : Sys) :
    Sys × Effects :=
  if ev.channelIsThread && sys.db.hasThread ev.channelId then
    match sys.db.getMessage ev.id with
    | none => (sys, { logs := ["TypeError: bind of an undefined row"] })
    | some _ =>
      match ev.editedTimestamp with
      | none => (sys, { logs := ["SqliteError: NOT NULL constraint failed: messages.editedAt"] })
      | some ts =>
        let db1 := sys.db.updateMessage ev.id (fun m => { m with editedAt := ts })
        match ev.content with
        | none =>
          ({ sys with db := db1 },
           { logs := ["The content of the updated message is null."] })
        | some c =>
          match db1.getThread ev.channelId with
          | none => ({ sys with db := db1 }, {})
          | some thread =>
            match db1.getUser thread.userId with
            | none => ({ sys with db := db1 }, {})
            | some user =>
              if user.currentThreadId = some ev.channelId then
                let r2 := Chat.sendMsg env { sys with db := db1 }
                  thread.userId (ServerMsg.serverEditedMessage ev.id c ts)
                (r2.1, r2.2.1)
              else ({ sys with db := db1 }, {})
  else (sys, {})

-- ===========================================================
-- Chat.onWebSocketMessage (src/chat.ts lines 789-861)
-- ===========================================================

/-- `Chat.onWebSocketMessage(websocket, request, data, isBinary)`: reject
binary frames; resolve the client address; run the authenticate /
authenticate-anonymously handshakes (registering the three session
mappings and invoking the bot callback), or dispatch an authenticated
client's frame to the bot callback. The bot's `onMessage` is the
registered `messageCallback`. -/
def Chat.onWebSocketMessage (env : Env) (conn : Nat) (clientAddress : Option String)
    (msg : BotInMsg) (isBinary : Bool) (sys : Sys) : Sys × Effects :=
  if isBinary then (sys, { logs := ["Binary messages are not supported."] })
  else
    match clientAddress with
    | none => (sys, {})
    | some addr =>
      match msg with
      | BotInMsg.authenticate token =>
        match env.authResponse token with
        | none =>
          (sys, { logs := ["The client sent an invalid authorization token."] })
        | some (accountId, name, email) =>
          let uid := accountId ++ " " ++ email
          let reg1 : Registry :=
            { ipToUser := Assoc.set sys.reg.ipToUser addr uid,
              userToIp := Assoc.set sys.reg.userToIp uid addr,
              userToWebsocket := Assoc.set sys.reg.userToWebsocket uid conn }
          let sys1 := { sys with reg := reg1 }
          let r2 := Bot.onMessage env uid (BotInMsg.internalAuthenticate uid name) sys1
          let r3 := Bot.onMessage env uid (BotInMsg.authenticate token) r2.1
          (r3.1, (r2.2).append r3.2)
      | BotInMsg.authenticateAnonymously email =>
        let uid := addr
        let reg1 : Registry :=
          { ipToUser := Assoc.set sys.reg.ipToUser addr uid,
            userToIp := Assoc.set sys.reg.userToIp uid addr,
            userToWebsocket := Assoc.set sys.reg.userToWebsocket uid conn }
        let sys1 := { sys with reg := reg1 }
        if env.isEmail email then
          let r2 := Bot.onMessage env uid
            (BotInMsg.internalAuthenticateAnonymously uid email) sys1
          let r3 := Bot.onMessage env uid
            (BotInMsg.authenticateAnonymously email) r2.1
          (r3.1, (r2.2).append r3.2)
        else (sys1, { closes := [conn] })
      | other =>
        match Assoc.get sys.reg.ipToUser addr with
        | none => (sys, { logs := ["The client is not authenticated."] })
        | some uid => Bot.onMessage env uid other sys

/-- `Chat.removeClient(request)`: the cleanup run on transport close or
error — drop the address's user mapping and that user's reverse mappings. -/
def Chat.removeClient (sys : Sys) (clientAddress : Option String) : Sys :=
  match clientAddress with
  | none => sys
  | some addr =>
    match Assoc.get sys.reg.ipToUser addr with
    | none => { sys with reg := { sys.reg with ipToUser := Assoc.del sys.reg.ipToUser addr } }
    | some uid =>
      { sys with reg :=
          { ipToUser := Assoc.del sys.reg.ipToUser addr,
            userToIp := Assoc.del sys.reg.userToIp uid,
            userToWebsocket := Assoc.del sys.reg.userToWebsocket uid } }

-- ===========================================================
-- Engine operation sequences
-- ===========================================================

/-- One engine operation: an inbound socket frame, a bot-level client or
internal frame, or an inbound platform event. Each operation carries its
own environment (fresh platform ids, oracle outcomes). -/
inductive Op where
  | ws (env : Env) (conn : Nat) (clientAddress : Option String)
      (msg : BotInMsg) (isBinary : Bool)
  | client (env : Env) (uid : String) (msg : BotInMsg)
  | discordCreate (env : Env) (ev : CreateEvent)
  | discordUpdate (env : Env) (ev : UpdateEvent)

/-- Run one operation. -/
def applyOp (sys : Sys) : Op → Sys × Effects
  | Op.ws env conn addr msg bin => Chat.onWebSocketMessage env conn addr msg bin sys
  | Op.client env uid msg => Bot.onMessage env uid msg sys
  | Op.discordCreate env ev => Bot.onDiscordMessageCreate env ev sys
  | Op.discordUpdate env ev => Bot.onDiscordMessageUpdate env ev sys

/-- Run a sequence of operations, keeping the final state. -/
def applyOps (sys : Sys) : List Op → Sys
  | [] => sys
  | op :: ops => applyOps (applyOp sys op).1 ops

-- ===========================================================
-- Helper lemmas
-- ===========================================================

theorem Assoc.get_del_self {α β : Type} [DecidableEq α] (l : List (α × β)) (k : α) :
    Assoc.get (Assoc.del l k) k = none := by
  induction l with
  | nil => rfl
  | cons p l ih =>
    by_cases h : p.1 = k
    · simpa [Assoc.del, List.filter_cons, h] using ih
    · simpa [Assoc.get, Assoc.del, List.filter_cons, List.find?_cons, h] using ih

theorem List.find?_append_some {α : Type} {p : α → Bool} {l₁ l₂ : List α} {a : α}
    (h : List.find? p l₁ = some a) : List.find? p (l₁ ++ l₂) = some a := by
  rw [List.find?_append, h]; rfl

-- Fixtures used by the concrete scenarios below.

/-- The empty system state (fresh registry, fresh database). -/
def sys0 : Sys :=
  { reg := { ipToUser := [], userToIp := [], userToWebsocket := [] },
    db := { users := [], threads := [], messages := [], reactions := [] } }

/-- An environment for concrete runs: every connection open, exactly the
address `a@b.com` accepted as an email, the identity endpoint rejecting
every token, platform fetches succeeding, fresh platform ids `T1` / `100`
at timestamp `5`. -/
def testEnv : Env :=
  { connOpen := fun _ => true, isEmail := fun s => s == "a@b.com",
    authResponse := fun _ => none, discordThreadOk := fun _ => true,
    discordMessageOk := fun _ => true, memberStaff := fun _ => some true,
    newThreadId := "T1", webhookMessageId := 100, webhookTimestamp := 5 }

-- ===========================================================
-- C1: history pagination
-- ===========================================================

/-- `getThreadLastMessages` is the ascending re-sort of the first `n`
entries of the descending sort of the query's pool. -/
theorem getThreadLastMessages_eq (db : DB) (tid : String) (n : Nat) (b : Option Nat) :
    db.getThreadLastMessages tid n b =
      List.insertionSort Message.idle
        ((List.insertionSort Message.idge (db.messagePool tid b)).take n) := by
  cases b <;> rfl

/-- The message of id `i` in the 20-message fixture thread. -/
def c1msg (i : Nat) : Message :=
  { discordMessageId := i, discordThreadId := "t", discordAuthorId := none,
    content := "m", createdAt := 0, editedAt := 0 }

/-- A thread `t` holding messages of ids 1..20 in ascending order. -/
def c1db : DB :=
  { users := [], threads := [], reactions := [],
    messages := (List.range 20).map (fun i => c1msg (i + 1)) }

/-- C1: for every thread and limit, `getThreadLastMessages(thread, n, before)`
returns up to `n` messages of that thread — exactly `min n |pool|`, where
the pool is the thread's messages (restricted to ids below `before` when
given) — in ascending message-id order, all drawn from the pool, and
maximal in the pool: any pool message left out has an id no larger than
every returned message. In particular, on a thread holding `m1..m20`,
limit 5 with `before = null` yields `[m16..m20]` and limit 5 with
`before = m16` yields `[m11..m15]`. -/
theorem getThreadLastMessages_correct :
    (∀ (db : DB) (tid : String) (n : Nat) (b : Option Nat),
      (db.getThreadLastMessages tid n b).length = min n (db.messagePool tid b).length ∧
      List.Sorted Message.idle (db.getThreadLastMessages tid n b) ∧
      (∀ m, m ∈ db.getThreadLastMessages tid n b → m ∈ db.messagePool tid b) ∧
      (∀ m, m ∈ db.messagePool tid b → m ∉ db.getThreadLastMessages tid n b →
        ∀ x, x ∈ db.getThreadLastMessages tid n b →
          m.discordMessageId ≤ x.discordMessageId)) ∧
    c1db.getThreadLastMessages "t" 5 none =
      [c1msg 16, c1msg 17, c1msg 18, c1msg 19, c1msg 20] ∧
    c1db.getThreadLastMessages "t" 5 (some 16) =
      [c1msg 11, c1msg 12, c1msg 13, c1msg 14, c1msg 15] := by
  refine ⟨fun db tid n b => ?_, by decide, by decide⟩
  rw [getThreadLastMessages_eq]
  set pool := db.messagePool tid b with hpool
  set D := List.insertionSort Message.idge pool with hD
  have hperm : (List.insertionSort Message.idle (D.take n)).Perm (D.take n) :=
    List.perm_insertionSort _ _
  have hDperm : D.Perm pool := List.perm_insertionSort _ _
  refine ⟨?_, List.sorted_insertionSort _ _, ?_, ?_⟩
  · rw [hperm.length_eq, List.length_take, hDperm.length_eq]
  · intro m hm
    exact hDperm.mem_iff.mp (List.take_subset n D (hperm.mem_iff.mp hm))
  · intro m hmpool hmout x hx
    have hmD : m ∈ D := hDperm.mem_iff.mpr hmpool
    have hmtake : m ∉ D.take n := fun h => hmout (hperm.mem_iff.mpr h)
    have hmsplit : m ∈ D.take n ++ D.drop n := by
      rw [List.take_append_drop]; exact hmD
    have hmdrop : m ∈ D.drop n := by
      rcases List.mem_append.mp hmsplit with h | h
      · exact absurd h hmtake
      · exact h
    have hxtake : x ∈ D.take n := hperm.mem_iff.mp hx
    have hsorted : List.Pairwise Message.idge (D.take n ++ D.drop n) := by
      rw [List.take_append_drop]
      exact List.sorted_insertionSort _ _
    exact (List.pairwise_append.mp hsorted).2.2 x hxtake m hmdrop

-- ===========================================================
-- C4: failed platform-token authentication
-- ===========================================================

/-- C4 (amended): when the identity endpoint rejects the access token, the
handler returns after logging: no frame is sent, no session-registry
mapping and no User row is created (state unchanged) — and no
`websocket.close()` is issued, so the transport is left open rather than
closed. -/
theorem authenticate_rejected_silent (env : Env) (conn : Nat) (addr token : String)
    (sys : Sys) (h : env.authResponse token = none) :
    Chat.onWebSocketMessage env conn (some addr) (BotInMsg.authenticate token) false sys =
      (sys, { logs := ["The client sent an invalid authorization token."] }) := by
  simp [Chat.onWebSocketMessage, h]

theorem authenticate_rejected_silent_witness :
    Chat.onWebSocketMessage testEnv 7 (some "10.0.0.1") (BotInMsg.authenticate "bad")
        false sys0 =
      (sys0, { logs := ["The client sent an invalid authorization token."] }) :=
  authenticate_rejected_silent testEnv 7 "10.0.0.1" "bad" sys0 rfl

/-- C4 counterexample: at a concrete rejected-token input the handler
issues NO `websocket.close()` call (`closes = []`), so the claim's "the
transport is closed" is false; the rest of the claim (no frame, no
mapping, no User row) does hold, as the state comes back unchanged. -/
theorem authenticate_rejected_not_closed :
    (Chat.onWebSocketMessage testEnv 7 (some "10.0.0.1") (BotInMsg.authenticate "bad")
        false sys0).2.closes = [] ∧
    (Chat.onWebSocketMessage testEnv 7 (some "10.0.0.1") (BotInMsg.authenticate "bad")
        false sys0).2.frames = [] ∧
    (Chat.onWebSocketMessage testEnv 7 (some "10.0.0.1") (BotInMsg.authenticate "bad")
        false sys0).1 = sys0 := by
  refine ⟨rfl, rfl, rfl⟩

-- ===========================================================
-- C6: anonymous authentication with an invalid email
-- ===========================================================

/-- C6 (amended): on a syntactically invalid email the engine closes the
transport with no reply frame and creates no User row (the database is
unchanged, the bot callback is never invoked) — but the three
session-registry mappings for the client ARE registered, because the
handler sets them before validating the email. -/
theorem authAnonymously_invalid_email (env : Env) (conn : Nat) (addr email : String)
    (sys : Sys) (h : env.isEmail email = false) :
    Chat.onWebSocketMessage env conn (some addr)
        (BotInMsg.authenticateAnonymously email) false sys =
      ({ sys with reg :=
          { ipToUser := Assoc.set sys.reg.ipToUser addr addr,
            userToIp := Assoc.set sys.reg.userToIp addr addr,
            userToWebsocket := Assoc.set sys.reg.userToWebsocket addr conn } },
       { closes := [conn] }) := by
  simp [Chat.onWebSocketMessage, h]

theorem authAnonymously_invalid_email_witness :
    Chat.onWebSocketMessage testEnv 3 (some "9.9.9.9")
        (BotInMsg.authenticateAnonymously "not-an-email") false sys0 =
      ({ sys0 with reg :=
          { ipToUser := Assoc.set sys0.reg.ipToUser "9.9.9.9" "9.9.9.9",
            userToIp := Assoc.set sys0.reg.userToIp "9.9.9.9" "9.9.9.9",
            userToWebsocket := Assoc.set sys0.reg.userToWebsocket "9.9.9.9" 3 } },
       { closes := [3] }) :=
  authAnonymously_invalid_email testEnv 3 "9.9.9.9" "not-an-email" sys0 (by decide)

/-- C6 counterexample: after a concrete invalid-email handshake all three
session-registry mappings for the client exist, so the claim's "no
session-registry mappings ... are created" is false (the transport-closed
and no-User-row parts do hold: `closes = [3]`, database unchanged). -/
theorem authAnonymously_invalid_email_registers :
    (Chat.onWebSocketMessage testEnv 3 (some "9.9.9.9")
        (BotInMsg.authenticateAnonymously "not-an-email") false sys0).1.reg =
      { ipToUser := [("9.9.9.9", "9.9.9.9")],
        userToIp := [("9.9.9.9", "9.9.9.9")],
        userToWebsocket := [("9.9.9.9", 3)] } ∧
    (Chat.onWebSocketMessage testEnv 3 (some "9.9.9.9")
        (BotInMsg.authenticateAnonymously "not-an-email") false sys0).2.closes = [3] ∧
    (Chat.onWebSocketMessage testEnv 3 (some "9.9.9.9")
        (BotInMsg.authenticateAnonymously "not-an-email") false sys0).1.db = sys0.db := by
  refine ⟨by decide, by decide, by decide⟩

-- ===========================================================
-- C7: stale-connection cleanup in Chat.send
-- ===========================================================

/-- C7: a `send` against a registered connection handle that is no longer
open reports not-connected, removes the user's `userToWebsocket` and
`userToIp` mappings and the `ipToUser` mapping of the user's remembered
address, writes no frame, and does not touch the database. -/
theorem sendMsg_stale_cleanup (env : Env) (sys : Sys) (uid : String) (msg : ServerMsg)
    (conn : Nat) (hconn : Assoc.get sys.reg.userToWebsocket uid = some conn)
    (hopen : env.connOpen conn = false) :
    (Chat.sendMsg env sys uid msg).2.2 = SendResult.notConnected ∧
    Assoc.get (Chat.sendMsg env sys uid msg).1.reg.userToWebsocket uid = none ∧
    Assoc.get (Chat.sendMsg env sys uid msg).1.reg.userToIp uid = none ∧
    (∀ a, Assoc.get sys.reg.userToIp uid = some a →
      Assoc.get (Chat.sendMsg env sys uid msg).1.reg.ipToUser a = none) ∧
    (Chat.sendMsg env sys uid msg).1.db = sys.db ∧
    (Chat.sendMsg env sys uid msg).2.1.frames = [] := by
  rcases hip : Assoc.get sys.reg.userToIp uid with _ | a <;>
    simp [Chat.sendMsg, hconn, hopen, hip, Assoc.get_del_self]

/-- A registry holding one stale connection for user `u`. -/
def sysC7 : Sys :=
  { reg := { ipToUser := [("1.1.1.1", "u")], userToIp := [("u", "1.1.1.1")],
             userToWebsocket := [("u", 9)] },
    db := { users := [], threads := [], messages := [], reactions := [] } }

/-- An environment in which every connection is closed. -/
def envClosed : Env := { testEnv with connOpen := fun _ => false }

theorem sendMsg_stale_cleanup_witness :
    (Chat.sendMsg envClosed sysC7 "u"
        (ServerMsg.serverEditedMessage 1 "x" 0)).2.2 = SendResult.notConnected ∧
    Assoc.get (Chat.sendMsg envClosed sysC7 "u"
        (ServerMsg.serverEditedMessage 1 "x" 0)).1.reg.userToWebsocket "u" = none ∧
    Assoc.get (Chat.sendMsg envClosed sysC7 "u"
        (ServerMsg.serverEditedMessage 1 "x" 0)).1.reg.userToIp "u" = none ∧
    (∀ a, Assoc.get sysC7.reg.userToIp "u" = some a →
      Assoc.get (Chat.sendMsg envClosed sysC7 "u"
        (ServerMsg.serverEditedMessage 1 "x" 0)).1.reg.ipToUser a = none) ∧
    (Chat.sendMsg envClosed sysC7 "u"
        (ServerMsg.serverEditedMessage 1 "x" 0)).1.db = sysC7.db ∧
    (Chat.sendMsg envClosed sysC7 "u"
        (ServerMsg.serverEditedMessage 1 "x" 0)).2.1.frames = [] :=
  sendMsg_stale_cleanup envClosed sysC7 "u" (ServerMsg.serverEditedMessage 1 "x" 0) 9
    rfl rfl

-- ===========================================================
-- C8: unregistered staff author in a tracked thread
-- ===========================================================

/-- C8: an inbound create event in a tracked thread from a human,
default-type message whose author is not a registered staff identity
changes no state and relays nothing: its only effects are the upstream
deletion of the message and the DM prompting the sender to register. -/
theorem unregistered_author_rejected (env : Env) (sys : Sys) (ev : CreateEvent)
    (hbot : ev.authorBot = false) (hsystem : ev.authorSystem = false)
    (hchan : ev.channelIsThread = true)
    (htracked : sys.db.hasThread ev.channelId = true)
    (htype : ev.typeIsDefault = true)
    (hunreg : sys.db.getUserByDiscordId ev.authorId = none) :
    Bot.onDiscordMessageCreate env ev sys =
      (sys, { deletes := [ev.id], dms := [ev.authorId] }) := by
  simp [Bot.onDiscordMessageCreate, hbot, hsystem, hchan, htracked, htype, hunreg]

/-- A tracked thread `T1` whose owner has no registered staff around. -/
def sysC8 : Sys :=
  { reg := { ipToUser := [], userToIp := [], userToWebsocket := [] },
    db := { users := [],
            threads := [{ discordThreadId := "T1", userId := "u", title := "Help",
                          lastMessageSentId := 1, lastMessageReadId := 1 }],
            messages := [], reactions := [] } }

/-- A default-type human message in thread `T1` from discord user `d77`. -/
def evC8 : CreateEvent :=
  { id := 42, channelId := "T1", authorId := "d77", authorBot := false,
    authorSystem := false, channelIsThread := true, channelIsDM := false,
    typeIsDefault := true, content := "hi", createdTimestamp := 3, attachments := [] }

theorem unregistered_author_rejected_witness :
    Bot.onDiscordMessageCreate testEnv evC8 sysC8 =
      (sysC8, { deletes := [42], dms := ["d77"] }) :=
  unregistered_author_rejected testEnv sysC8 evC8 rfl rfl rfl (by decide) rfl rfl

-- ===========================================================
-- Row-update lemmas
-- ===========================================================

theorem find?_map_pred {α : Type} (p : α → Bool) (u : α → α)
    (hu : ∀ w, p (u w) = p w) :
    ∀ l : List α, List.find? p (l.map u) = (List.find? p l).map u := by
  intro l
  induction l with
  | nil => rfl
  | cons a l ih =>
    by_cases h : p a = true
    · rw [List.map_cons, List.find?_cons_of_pos (l.map u) ((hu a).trans h),
        List.find?_cons_of_pos l h]
      rfl
    · rw [List.map_cons, List.find?_cons_of_neg (l.map u) (by simp [hu a, h]),
        List.find?_cons_of_neg l (by simpa using h), ih]

/-- The row `updateThread` writes over a matching row `w`, given the
thread `t` the transform was applied to. -/
def updatedThreadRow (fn : Thread → Thread) (t : Thread) (tid : String) (w : Thread) :
    Thread :=
  if w.discordThreadId = tid then
    { w with userId := (fn t).userId, title := (fn t).title,
             lastMessageSentId := (fn t).lastMessageSentId,
             lastMessageReadId := (fn t).lastMessageReadId }
  else w

theorem DB.updateThread_eq_of_some (db : DB) (tid : String) (fn : Thread → Thread)
    (t : Thread) (h : db.getThread tid = some t) :
    db.updateThread tid fn =
      { db with threads := db.threads.map (updatedThreadRow fn t tid) } := by
  unfold DB.updateThread
  rw [h]
  rfl

theorem updatedThreadRow_key (fn : Thread → Thread) (t : Thread) (tid : String)
    (w : Thread) : (updatedThreadRow fn t tid w).discordThreadId = w.discordThreadId := by
  unfold updatedThreadRow
  by_cases hw : w.discordThreadId = tid <;> simp [hw]

theorem DB.getThread_map_updatedThreadRow (db : DB) (tid tid' : String)
    (fn : Thread → Thread) (t : Thread) :
    ({ db with threads := db.threads.map (updatedThreadRow fn t tid) } : DB).getThread tid' =
      (db.getThread tid').map (updatedThreadRow fn t tid) := by
  unfold DB.getThread
  exact find?_map_pred _ _ (fun w => by rw [updatedThreadRow_key]) db.threads

/-- `updateThread` rewrites the matched row with the transform's four
written columns; the row keeps its `discordThreadId`. -/
theorem DB.getThread_updateThread_self (db : DB) (tid : String) (fn : Thread → Thread)
    (t : Thread) (h : db.getThread tid = some t) :
    (db.updateThread tid fn).getThread tid =
      some { t with userId := (fn t).userId, title := (fn t).title,
                    lastMessageSentId := (fn t).lastMessageSentId,
                    lastMessageReadId := (fn t).lastMessageReadId } := by
  have ht : t.discordThreadId = tid := by simpa using List.find?_some h
  rw [DB.updateThread_eq_of_some db tid fn t h, DB.getThread_map_updatedThreadRow, h]
  simp [updatedThreadRow, ht]

theorem DB.updateThread_users (db : DB) (tid : String) (fn : Thread → Thread) :
    (db.updateThread tid fn).users = db.users := by
  unfold DB.updateThread; split <;> rfl

theorem DB.updateThread_messages (db : DB) (tid : String) (fn : Thread → Thread) :
    (db.updateThread tid fn).messages = db.messages := by
  unfold DB.updateThread; split <;> rfl

theorem DB.updateThread_reactions (db : DB) (tid : String) (fn : Thread → Thread) :
    (db.updateThread tid fn).reactions = db.reactions := by
  unfold DB.updateThread; split <;> rfl

-- ===========================================================
-- C10: markAsRead is unconditional
-- ===========================================================

/-- C10: for every requesting user and every `markAsRead` frame naming an
existing thread, the handler sets that thread's `lastMessageReadId` to the
given message id unconditionally — the statement carries no hypothesis
relating the thread's owner to the requesting user, nor any about the
message id existing or lying in the thread — and leaves the thread's
`userId`, `title` and `lastMessageSentId` (and every other table, the
registry, and the effect log) unchanged. -/
theorem markAsRead_unconditional (env : Env) (sys : Sys) (uid tid : String) (mid : Nat)
    (t : Thread) (h : sys.db.getThread tid = some t) :
    (Bot.onMessage env uid (BotInMsg.markAsRead tid mid) sys).1.db.getThread tid =
      some { t with lastMessageReadId := mid } ∧
    (Bot.onMessage env uid (BotInMsg.markAsRead tid mid) sys).1.db.users = sys.db.users ∧
    (Bot.onMessage env uid (BotInMsg.markAsRead tid mid) sys).1.db.messages =
      sys.db.messages ∧
    (Bot.onMessage env uid (BotInMsg.markAsRead tid mid) sys).1.db.reactions =
      sys.db.reactions ∧
    (Bot.onMessage env uid (BotInMsg.markAsRead tid mid) sys).1.reg = sys.reg ∧
    (Bot.onMessage env uid (BotInMsg.markAsRead tid mid) sys).2 = {} := by
  refine ⟨?_, ?_, ?_, ?_, rfl, rfl⟩
  · simpa [Bot.onMessage] using
      DB.getThread_updateThread_self sys.db tid
        (fun w => { w with lastMessageReadId := mid }) t h
  · simpa [Bot.onMessage] using
      DB.updateThread_users sys.db tid (fun w => { w with lastMessageReadId := mid })
  · simpa [Bot.onMessage] using
      DB.updateThread_messages sys.db tid (fun w => { w with lastMessageReadId := mid })
  · simpa [Bot.onMessage] using
      DB.updateThread_reactions sys.db tid (fun w => { w with lastMessageReadId := mid })

/-- A thread owned by `bob`, in a database also knowing user `alice`. -/
def sysC10 : Sys :=
  { reg := { ipToUser := [], userToIp := [], userToWebsocket := [] },
    db := { users := [{ id := "alice", discordId := none, name := "Alice",
                        avatarUrl := none, currentThreadId := none, email := none }],
            threads := [{ discordThreadId := "T9", userId := "bob", title := "Q",
                          lastMessageSentId := 7, lastMessageReadId := 7 }],
            messages := [], reactions := [] } }

/-- `alice` marks `bob`'s thread as read at a message id (999) that exists
nowhere: the write still happens. -/
theorem markAsRead_unconditional_witness :
    (Bot.onMessage testEnv "alice" (BotInMsg.markAsRead "T9" 999) sysC10).1.db.getThread
        "T9" =
      some { discordThreadId := "T9", userId := "bob", title := "Q",
             lastMessageSentId := 7, lastMessageReadId := 999 } ∧
    (Bot.onMessage testEnv "alice" (BotInMsg.markAsRead "T9" 999)
        sysC10).1.db.users = sysC10.db.users ∧
    (Bot.onMessage testEnv "alice" (BotInMsg.markAsRead "T9" 999)
        sysC10).1.db.messages = sysC10.db.messages ∧
    (Bot.onMessage testEnv "alice" (BotInMsg.markAsRead "T9" 999)
        sysC10).1.db.reactions = sysC10.db.reactions ∧
    (Bot.onMessage testEnv "alice" (BotInMsg.markAsRead "T9" 999)
        sysC10).1.reg = sysC10.reg ∧
    (Bot.onMessage testEnv "alice" (BotInMsg.markAsRead "T9" 999) sysC10).2 = {} :=
  markAsRead_unconditional testEnv sysC10 "alice" "T9" 999
    { discordThreadId := "T9", userId := "bob", title := "Q",
      lastMessageSentId := 7, lastMessageReadId := 7 } rfl

-- ===========================================================
-- Database-preservation helpers
-- ===========================================================

theorem Chat.sendMsg_db (env : Env) (sys : Sys) (uid : String) (m : ServerMsg) :
    (Chat.sendMsg env sys uid m).1.db = sys.db := by
  unfold Chat.sendMsg
  repeat' split
  all_goals rfl

theorem Bot.sendThread_db (env : Env) (uid : String) (tid? : Option String)
    (rt : ReqType) (gb : Option Nat) (sys : Sys) :
    (Bot.sendThread env uid tid? rt gb sys).1.db = sys.db := by
  unfold Bot.sendThread
  repeat' split
  all_goals first
    | rfl
    | exact Chat.sendMsg_db _ _ _ _

theorem DB.hasThread_of_getThread (db : DB) (tid : String) (t : Thread)
    (h : db.getThread tid = some t) : db.hasThread tid = true := by
  unfold DB.hasThread
  unfold DB.getThread at h
  have hm := List.mem_of_find?_eq_some h
  have hp := List.find?_some h
  exact List.any_eq_true.mpr ⟨t, hm, hp⟩

theorem DB.getThread_createMessage (db : DB) (m : Message) (tid : String) :
    (db.createMessage m).getThread tid = db.getThread tid := rfl

-- ===========================================================
-- C2: historyBefore for an email-authenticated (anonymous) user
-- ===========================================================

/-- C2 (the code violates the claim): a user who authenticated anonymously
with email `a@b.com` and opened thread `T1` sends `historyBefore`. The
claim (and the spec) say the request is silently ignored for email-bearing
sessions — but the `users` table has no `email` column
(`createUserStatement` inserts only `id, discordId, name, avatarUrl,
currentThreadId`), so the stored row's email is gone, the handler's
`if (user.email) break` guard never fires, and a `serverThread` history
frame IS sent back. The first conjunct exhibits the lost email; the second
the relayed history frame. -/
theorem historyBefore_email_user_gets_history :
    ((Chat.onWebSocketMessage testEnv 1 (some "1.2.3.4")
        (BotInMsg.newThread "Help" "Hi") false
        (Chat.onWebSocketMessage testEnv 1 (some "1.2.3.4")
          (BotInMsg.authenticateAnonymously "a@b.com") false sys0).1).1.db.getUser
        "1.2.3.4").map User.email = some none ∧
    (Chat.onWebSocketMessage testEnv 1 (some "1.2.3.4")
        (BotInMsg.historyBefore 100) false
        (Chat.onWebSocketMessage testEnv 1 (some "1.2.3.4")
          (BotInMsg.newThread "Help" "Hi") false
          (Chat.onWebSocketMessage testEnv 1 (some "1.2.3.4")
            (BotInMsg.authenticateAnonymously "a@b.com") false sys0).1).1).2.frames =
      [("1.2.3.4", ServerMsg.serverThread ReqType.historyBefore "T1" "Help" true [])] := by
  refine ⟨by decide, by decide⟩

-- ===========================================================
-- C3: the unread flag
-- ===========================================================

/-- User `u`, a thread `T` fully read (`sent = read = 1`) holding message
1, and no registered staff. -/
def sysC3 : Sys :=
  { reg := { ipToUser := [], userToIp := [], userToWebsocket := [] },
    db := { users := [{ id := "u", discordId := none, name := "U",
                        avatarUrl := none, currentThreadId := some "T", email := none }],
            threads := [{ discordThreadId := "T", userId := "u", title := "x",
                          lastMessageSentId := 1, lastMessageReadId := 1 }],
            messages := [{ discordMessageId := 1, discordThreadId := "T",
                           discordAuthorId := none, content := "first",
                           createdAt := 0, editedAt := 0 }],
            reactions := [] } }

/-- The environment under which the webhook answers with message id 2. -/
def envC3 : Env := { testEnv with webhookMessageId := 2, webhookTimestamp := 9 }

/-- C3 counterexample: the client sends a new message (id 2) into thread
`T` via the `message` frame; the message row is persisted, yet the
thread's `lastMessageSentId` stays 1 — so "sending any new message in the
thread (either direction) sets `lastMessageSentId` to the new message's
id" is false for the client-to-staff direction. -/
theorem clientMessage_leaves_lastMessageSentId :
    ((Bot.onMessage envC3 "u" (BotInMsg.message "T" "hello") sysC3).1.db.getMessage
        2).isSome = true ∧
    (Bot.onMessage envC3 "u" (BotInMsg.message "T" "hello") sysC3).1.db.getThread "T" =
      some { discordThreadId := "T", userId := "u", title := "x",
             lastMessageSentId := 1, lastMessageReadId := 1 } := by
  refine ⟨by decide, by decide⟩


/-- In the registered-staff branch, `onDiscordMessageCreate` leaves the
database at exactly "message row inserted, thread's `lastMessageSentId`
advanced", whichever relay branch runs afterwards. -/
theorem onDiscordCreate_registered_db (env : Env) (sys : Sys) (ev : CreateEvent)
    (staff : User)
    (hbot : ev.authorBot = false) (hsystem : ev.authorSystem = false)
    (hchan : ev.channelIsThread = true) (htype : ev.typeIsDefault = true)
    (htracked : sys.db.hasThread ev.channelId = true)
    (hstaff : sys.db.getUserByDiscordId ev.authorId = some staff)
    (hnew : sys.db.getMessage ev.id = none) :
    (Bot.onDiscordMessageCreate env ev sys).1.db =
      (sys.db.createMessage
        { discordMessageId := ev.id, discordThreadId := ev.channelId,
          discordAuthorId := some ev.authorId, content := ev.content,
          createdAt := ev.createdTimestamp, editedAt := ev.createdTimestamp }).updateThread
        ev.channelId (fun t => { t with lastMessageSentId := ev.id }) := by
  simp only [Bot.onDiscordMessageCreate, hbot, hsystem, hchan, htype, htracked, hstaff,
    hnew, Bool.or_self, Bool.and_self, if_false, if_true, Option.isSome_none,
    Bool.false_eq_true]
  repeat' split
  all_goals first
    | rfl
    | exact Chat.sendMsg_db _ _ _ _

/-- C3 (amended): a thread's unread state is reported true iff
`lastMessageReadId` differs from `lastMessageSentId`; an inbound platform
(staff) message in a tracked thread sets `lastMessageSentId` to the new
message's id, which makes unread true whenever that id differs from
`lastMessageReadId`; a client-sent `message` frame leaves the whole
threads table — hence `lastMessageSentId` — unchanged; a `markAsRead`
carrying the thread's `lastMessageSentId` makes unread false. -/
theorem unread_flag_amended :
    (∀ t : Thread,
      (threadData t).hasUnreadMessages = true ↔
        t.lastMessageReadId ≠ t.lastMessageSentId) ∧
    (∀ (env : Env) (sys : Sys) (ev : CreateEvent) (staff : User) (t : Thread),
      ev.authorBot = false → ev.authorSystem = false → ev.channelIsThread = true →
      ev.typeIsDefault = true → sys.db.getUserByDiscordId ev.authorId = some staff →
      sys.db.getMessage ev.id = none → sys.db.getThread ev.channelId = some t →
      (Bot.onDiscordMessageCreate env ev sys).1.db.getThread ev.channelId =
        some { t with lastMessageSentId := ev.id } ∧
      (ev.id ≠ t.lastMessageReadId →
        (threadData { t with lastMessageSentId := ev.id }).hasUnreadMessages = true)) ∧
    (∀ (env : Env) (uid tid content : String) (sys : Sys),
      (Bot.onMessage env uid (BotInMsg.message tid content) sys).1.db.threads =
        sys.db.threads) ∧
    (∀ (env : Env) (uid : String) (sys : Sys) (tid : String) (t : Thread),
      sys.db.getThread tid = some t →
      (Bot.onMessage env uid
          (BotInMsg.markAsRead tid t.lastMessageSentId) sys).1.db.getThread tid =
        some { t with lastMessageReadId := t.lastMessageSentId } ∧
      (threadData
          { t with lastMessageReadId := t.lastMessageSentId }).hasUnreadMessages =
        false) := by
  refine ⟨fun t => by simp [threadData], ?_, ?_, ?_⟩
  · intro env sys ev staff t hbot hsystem hchan htype hstaff hnew ht
    have htracked := DB.hasThread_of_getThread sys.db ev.channelId t ht
    constructor
    · rw [onDiscordCreate_registered_db env sys ev staff hbot hsystem hchan htype
        htracked hstaff hnew]
      have ht' : (sys.db.createMessage
          { discordMessageId := ev.id, discordThreadId := ev.channelId,
            discordAuthorId := some ev.authorId, content := ev.content,
            createdAt := ev.createdTimestamp,
            editedAt := ev.createdTimestamp }).getThread ev.channelId = some t := ht
      rw [DB.getThread_updateThread_self _ _ _ t ht']
    · intro hid
      simp [threadData]
      exact fun h => hid (h.symm)
  · intro env uid tid content sys
    simp only [Bot.onMessage]
    repeat' split
    all_goals rfl
  · intro env uid sys tid t ht
    refine ⟨?_, by simp [threadData]⟩
    simpa [Bot.onMessage] using
      DB.getThread_updateThread_self sys.db tid
        (fun w => { w with lastMessageReadId := t.lastMessageSentId }) t ht

-- ===========================================================
-- C5: malformed edit events
-- ===========================================================

/-- A tracked thread `T` (current for its owner `u`) holding staff message
60 with `createdAt = editedAt = 10`. -/
def sysC5 : Sys :=
  { reg := { ipToUser := [], userToIp := [], userToWebsocket := [] },
    db := { users := [{ id := "u", discordId := none, name := "U",
                        avatarUrl := none, currentThreadId := some "T", email := none },
                      { id := "d1", discordId := some "d1", name := "Staff",
                        avatarUrl := none, currentThreadId := none, email := none }],
            threads := [{ discordThreadId := "T", userId := "u", title := "x",
                          lastMessageSentId := 60, lastMessageReadId := 60 }],
            messages := [{ discordMessageId := 60, discordThreadId := "T",
                           discordAuthorId := some "d1", content := "orig",
                           createdAt := 10, editedAt := 10 }],
            reactions := [] } }

/-- An edit event for message 60 whose new content is missing but whose
edit timestamp (99) is present. -/
def evC5 : UpdateEvent :=
  { id := 60, channelId := "T", channelIsThread := true, content := none,
    editedTimestamp := some 99 }

/-- C5 (the code violates the claim): on an inbound edit event with
missing content, the handler runs `updateMessage` BEFORE the null checks,
so the message row's `editedAt` is overwritten (10 → 99) even though the
event is then logged and no `serverEditedMessage` frame is relayed. The
claim's "no Message row is modified (`editedAt` unchanged)" is false.
(For a missing edit timestamp the row survives only because binding null
into the `NOT NULL` `editedAt` column makes sqlite throw.) -/
theorem editEvent_missing_content_updates_row :
    (Bot.onDiscordMessageUpdate testEnv evC5 sysC5).1.db.getMessage 60 =
      some { discordMessageId := 60, discordThreadId := "T",
             discordAuthorId := some "d1", content := "orig", createdAt := 10,
             editedAt := 99 } ∧
    (Bot.onDiscordMessageUpdate testEnv evC5 sysC5).2.frames = [] ∧
    (Bot.onDiscordMessageUpdate testEnv evC5 sysC5).2.logs =
      ["The content of the updated message is null."] := by
  refine ⟨by decide, by decide, by decide⟩

-- ===========================================================
-- C9: thread ownership is immutable
-- ===========================================================

/-- The owning user of thread `tid`, when tracked. -/
def ownerOf (db : DB) (tid : String) : Option String :=
  (db.getThread tid).map Thread.userId

/-- Every thread tracked in `db` is still tracked in `db'` with the same
owner. -/
def ownerPreserved (db db' : DB) : Prop :=
  ∀ tid u, ownerOf db tid = some u → ownerOf db' tid = some u

theorem ownerPreserved_refl (db : DB) : ownerPreserved db db := fun _ _ h => h

theorem ownerPreserved_trans {a b c : DB} (h1 : ownerPreserved a b)
    (h2 : ownerPreserved b c) : ownerPreserved a c :=
  fun tid u h => h2 tid u (h1 tid u h)

theorem ownerOf_eq_of_threads_eq {db db' : DB} (h : db'.threads = db.threads)
    (tid : String) : ownerOf db' tid = ownerOf db tid := by
  unfold ownerOf DB.getThread
  rw [h]

theorem ownerPreserved_of_threads_eq {db db' : DB} (h : db'.threads = db.threads) :
    ownerPreserved db db' := by
  intro tid u hu
  rw [ownerOf_eq_of_threads_eq h]
  exact hu

theorem ownerPreserved_createThread (db : DB) (t : Thread) :
    ownerPreserved db (db.createThread t) := by
  intro tid u hu
  unfold ownerOf DB.getThread DB.createThread at *
  simp only at *
  rcases hfind : List.find? (fun w => decide (w.discordThreadId = tid)) db.threads
    with _ | w
  · rw [hfind] at hu
    exact absurd hu (by simp)
  · rw [hfind] at hu
    rw [List.find?_append_some hfind]
    exact hu

theorem ownerOf_updateThread (db : DB) (tid' : String) (fn : Thread → Thread)
    (tid : String) (hfn : ∀ w, (fn w).userId = w.userId) :
    ownerOf (db.updateThread tid' fn) tid = ownerOf db tid := by
  cases h : db.getThread tid' with
  | none => unfold DB.updateThread; rw [h]
  | some t =>
    rw [DB.updateThread_eq_of_some db tid' fn t h]
    unfold ownerOf
    rw [DB.getThread_map_updatedThreadRow]
    cases h2 : db.getThread tid with
    | none => rfl
    | some w =>
      show some (updatedThreadRow fn t tid' w).userId = some w.userId
      unfold updatedThreadRow
      by_cases hw : w.discordThreadId = tid'
      · have hwtid : w.discordThreadId = tid := by simpa using List.find?_some h2
        have htid : tid = tid' := by rw [← hwtid, hw]
        subst htid
        have htw : t = w := Option.some.inj (h.symm.trans h2)
        subst htw
        simp [hw, hfn t]
      · simp [hw]

theorem ownerPreserved_updateThread (db : DB) (tid' : String) (fn : Thread → Thread)
    (hfn : ∀ w, (fn w).userId = w.userId) :
    ownerPreserved db (db.updateThread tid' fn) := by
  intro tid u hu
  rw [ownerOf_updateThread db tid' fn tid hfn]
  exact hu

theorem DB.updateUser_threads (db : DB) (uid : String) (fn : User → User) :
    (db.updateUser uid fn).threads = db.threads := by
  unfold DB.updateUser; split <;> rfl

theorem DB.updateMessage_threads (db : DB) (mid : Nat) (fn : Message → Message) :
    (db.updateMessage mid fn).threads = db.threads := by
  unfold DB.updateMessage; split <;> rfl


theorem ownerOf_createUser_some {db : DB} {tid u : String} (x : NewUser)
    (hu : ownerOf db tid = some u) : ownerOf (db.createUser x) tid = some u := by
  rw [ownerOf_eq_of_threads_eq (show (db.createUser x).threads = db.threads from rfl) tid]
  exact hu

theorem ownerOf_updateUser_some {db : DB} {tid u : String} (uid : String)
    (fn : User → User) (hu : ownerOf db tid = some u) :
    ownerOf (db.updateUser uid fn) tid = some u := by
  rw [ownerOf_eq_of_threads_eq (DB.updateUser_threads db uid fn)]
  exact hu

theorem ownerOf_createMessage_some {db : DB} {tid u : String} (m : Message)
    (hu : ownerOf db tid = some u) : ownerOf (db.createMessage m) tid = some u := by
  rw [ownerOf_eq_of_threads_eq (show (db.createMessage m).threads = db.threads from rfl) tid]
  exact hu

theorem ownerOf_updateMessage_some {db : DB} {tid u : String} (mid : Nat)
    (fn : Message → Message) (hu : ownerOf db tid = some u) :
    ownerOf (db.updateMessage mid fn) tid = some u := by
  rw [ownerOf_eq_of_threads_eq (DB.updateMessage_threads db mid fn)]
  exact hu

theorem ownerOf_createReaction_some {db : DB} {tid u : String} (r : Reaction)
    (hu : ownerOf db tid = some u) : ownerOf (db.createReaction r) tid = some u := by
  rw [ownerOf_eq_of_threads_eq (show (db.createReaction r).threads = db.threads from rfl) tid]
  exact hu

theorem ownerOf_deleteReaction_some {db : DB} {tid u : String} (r : Reaction)
    (hu : ownerOf db tid = some u) : ownerOf (db.deleteReaction r) tid = some u := by
  rw [ownerOf_eq_of_threads_eq (show (db.deleteReaction r).threads = db.threads from rfl) tid]
  exact hu

theorem ownerOf_createThread_some {db : DB} {tid u : String} (t : Thread)
    (hu : ownerOf db tid = some u) : ownerOf (db.createThread t) tid = some u :=
  ownerPreserved_createThread db t tid u hu

theorem ownerOf_updateThread_some {db : DB} {tid u : String} (tid' : String)
    (fn : Thread → Thread) (hfn : ∀ w, (fn w).userId = w.userId)
    (hu : ownerOf db tid = some u) :
    ownerOf (db.updateThread tid' fn) tid = some u := by
  rw [ownerOf_updateThread db tid' fn tid hfn]
  exact hu

theorem onMessage_ownerPreserved (env : Env) (uid : String) (msg : BotInMsg)
    (sys : Sys) : ownerPreserved sys.db (Bot.onMessage env uid msg sys).1.db := by
  intro tid u hu
  cases msg with
  | internalAuthenticate uid' name =>
    simp only [Bot.onMessage]
    split
    · exact hu
    · exact ownerOf_createUser_some _ hu
  | internalAuthenticateAnonymously uid' email =>
    simp only [Bot.onMessage]
    split
    · exact hu
    · exact ownerOf_createUser_some _ hu
  | authenticate token =>
    simp only [Bot.onMessage]
    split
    · rw [Chat.sendMsg_db]
      exact hu
    · rw [Bot.sendThread_db, Chat.sendMsg_db]
      exact hu
  | authenticateAnonymously email => exact hu
  | historyBefore mid =>
    simp only [Bot.onMessage]
    split
    · exact hu
    · split
      · exact hu
      · rw [Bot.sendThread_db]
        exact hu
  | newThread title content =>
    simp only [Bot.onMessage]
    split
    · exact hu
    · split
      · exact ownerOf_updateUser_some _ _ hu
      · split
        · exact ownerOf_createThread_some _ (ownerOf_updateUser_some _ _ hu)
        · rw [Chat.sendMsg_db]
          exact ownerOf_createMessage_some _
            (ownerOf_createThread_some _ (ownerOf_updateUser_some _ _ hu))
  | renameThread title tid' =>
    simp only [Bot.onMessage]
    split
    · exact ownerOf_updateThread_some _ _ (fun w => rfl) hu
    · exact hu
  | switchThread tid' =>
    simp only [Bot.onMessage]
    split
    · exact hu
    · rw [Bot.sendThread_db]
      exact ownerOf_updateUser_some _ _ hu
  | message tid' content =>
    simp only [Bot.onMessage]
    split
    · split
      · exact hu
      · split
        · exact hu
        · exact ownerOf_createMessage_some _ hu
    · exact hu
  | reaction mid sym =>
    simp only [Bot.onMessage]
    repeat' split
    all_goals first
      | exact hu
      | exact ownerOf_createReaction_some _ hu
  | removeReaction mid sym =>
    simp only [Bot.onMessage]
    repeat' split
    all_goals first
      | exact hu
      | exact ownerOf_deleteReaction_some _ hu
  | markAsRead tid' mid =>
    simp only [Bot.onMessage]
    exact ownerOf_updateThread_some _ _ (fun w => rfl) hu

theorem onDiscordMessageCreate_ownerPreserved (env : Env) (ev : CreateEvent)
    (sys : Sys) :
    ownerPreserved sys.db (Bot.onDiscordMessageCreate env ev sys).1.db := by
  intro tid u hu
  simp only [Bot.onDiscordMessageCreate]
  repeat' split
  all_goals first
    | exact hu
    | exact ownerOf_updateThread_some _ _ (fun w => rfl)
        (ownerOf_createMessage_some _ hu)
    | (rw [Chat.sendMsg_db]
       exact ownerOf_updateThread_some _ _ (fun w => rfl)
         (ownerOf_createMessage_some _ hu))
    | exact ownerOf_updateUser_some _ _ hu
    | exact ownerOf_createUser_some _ hu

theorem onDiscordMessageUpdate_ownerPreserved (env : Env) (ev : UpdateEvent)
    (sys : Sys) :
    ownerPreserved sys.db (Bot.onDiscordMessageUpdate env ev sys).1.db := by
  intro tid u hu
  simp only [Bot.onDiscordMessageUpdate]
  repeat' split
  all_goals first
    | exact hu
    | exact ownerOf_updateMessage_some _ _ hu
    | (rw [Chat.sendMsg_db]
       exact ownerOf_updateMessage_some _ _ hu)

theorem onWebSocketMessage_ownerPreserved (env : Env) (conn : Nat)
    (addr : Option String) (msg : BotInMsg) (bin : Bool) (sys : Sys) :
    ownerPreserved sys.db (Chat.onWebSocketMessage env conn addr msg bin sys).1.db := by
  intro tid u hu
  unfold Chat.onWebSocketMessage
  repeat' split
  all_goals first
    | exact hu
    | exact onMessage_ownerPreserved _ _ _ _ tid u hu
    | exact onMessage_ownerPreserved _ _ _ _ tid u
        (onMessage_ownerPreserved _ _ _ _ tid u hu)

theorem applyOp_ownerPreserved (sys : Sys) (op : Op) :
    ownerPreserved sys.db (applyOp sys op).1.db := by
  cases op with
  | ws env conn addr msg bin => exact onWebSocketMessage_ownerPreserved _ _ _ _ _ _
  | client env uid msg => exact onMessage_ownerPreserved _ _ _ _
  | discordCreate env ev => exact onDiscordMessageCreate_ownerPreserved _ _ _
  | discordUpdate env ev => exact onDiscordMessageUpdate_ownerPreserved _ _ _

theorem applyOps_ownerPreserved (ops : List Op) (sys : Sys) :
    ownerPreserved sys.db (applyOps sys ops).db := by
  induction ops generalizing sys with
  | nil => exact ownerPreserved_refl _
  | cons op ops ih =>
    exact ownerPreserved_trans (applyOp_ownerPreserved sys op) (ih (applyOp sys op).1)

/-- C9: across every sequence of engine operations (inbound socket frames,
client/internal frames, platform create events, platform edit events), a
tracked thread stays tracked and keeps the `userId` it was created with —
no operation after `createThread` ever changes a thread's owning user. -/
theorem thread_owner_never_changes (ops : List Op) (sys : Sys) (tid : String)
    (t : Thread) (h : sys.db.getThread tid = some t) :
    ∃ t', (applyOps sys ops).db.getThread tid = some t' ∧ t'.userId = t.userId := by
  have h0 : ownerOf sys.db tid = some t.userId := by
    unfold ownerOf
    rw [h]
    rfl
  have h1 := applyOps_ownerPreserved ops sys tid t.userId h0
  unfold ownerOf at h1
  rcases hfind : (applyOps sys ops).db.getThread tid with _ | t'
  · rw [hfind] at h1
    exact absurd h1 (by simp)
  · rw [hfind] at h1
    exact ⟨t', rfl, by simpa using h1⟩

/-- A foreign `markAsRead`, a rename and a platform edit on `bob`'s thread
`T9`. -/
def opsC9 : List Op :=
  [Op.client testEnv "alice" (BotInMsg.markAsRead "T9" 999),
   Op.client testEnv "alice" (BotInMsg.renameThread "New title" "T9"),
   Op.discordUpdate testEnv
     { id := 7, channelId := "T9", channelIsThread := true, content := some "e",
       editedTimestamp := some 3 }]

theorem thread_owner_never_changes_witness :
    ∃ t', (applyOps sysC10 opsC9).db.getThread "T9" = some t' ∧ t'.userId = "bob" :=
  thread_owner_never_changes opsC9 sysC10 "T9"
    { discordThreadId := "T9", userId := "bob", title := "Q",
      lastMessageSentId := 7, lastMessageReadId := 7 } rfl
